import Mathlib

/-!
# Verification of the FaceFusion job orchestrator

Shallow embedding of the orchestrator subsystem
(`facefusion/orchestrator/{models,store,events,orchestrator,runner,security}.py`
and the queue-running endpoint of `facefusion/api_server.py`) and proofs of the
specification claims about it.

Modelling conventions:
* timestamps are natural numbers (`datetime.utcnow()` becomes an explicit
  `now : Nat` argument threaded to the operations that stamp times);
* `progress` (a Python float used only with `<`, `min`, `max` and the
  constants 0.0 and 1.0) is a rational number;
* the SQLite `jobs` table is a list of rows in insertion order, one `Job`
  per row (the row stores exactly the fields of a `Job`, so the serialised
  row is modelled by the `Job` value itself);
* Python mutation becomes explicit state passing: methods that mutate a
  `Job` or the store return the new value, paired with the boolean result
  the source returns.
-/

namespace Facefusion

/-- `JobStatus` from `orchestrator/models.py`. -/
inductive JobStatus where
  | drafted
  | queued
  | running
  | completed
  | failed
  | canceled
deriving DecidableEq, Repr

/-- `StepStatus` from `orchestrator/models.py`. -/
inductive StepStatus where
  | pending
  | running
  | completed
  | failed
  | skipped
deriving DecidableEq, Repr

/-- `ErrorCode` from `orchestrator/models.py`. -/
inductive ErrorCode where
  | SUCCESS
  | VALIDATION_ERROR
  | IO_ERROR
  | PATH_ERROR
  | FFMPEG_ERROR
  | FFMPEG_TIMEOUT
  | PIPELINE_FAILED
  | MODEL_LOAD_FAILED
  | CUDA_ERROR
  | CANCELED
  | INTERNAL_ERROR
deriving DecidableEq, Repr

/-- `JobStatus.valid_transitions` (`models.py`): the transition table. -/
def JobStatus.valid_transitions : JobStatus → List JobStatus
  | .drafted => [.queued]
  | .queued => [.running, .canceled]
  | .running => [.completed, .failed, .canceled]
  | .completed => []
  | .failed => [.queued]
  | .canceled => []

/-- `JobStatus.can_transition_to` (`models.py`). -/
def JobStatus.can_transition_to (s t : JobStatus) : Bool :=
  s.valid_transitions.contains t

/-- `JobStatus.is_terminal` (`models.py`). -/
def JobStatus.is_terminal (s : JobStatus) : Bool :=
  s = .completed || s = .failed || s = .canceled

/-- Values stored in the free-form dictionaries (`config`, `metadata`,
event `data`).  The orchestrator stores strings, lists of strings and
integers (`metadata['priority'] = int(...)`) in them. -/
inductive Value where
  | str : String → Value
  | strList : List String → Value
  | int : Int → Value
deriving DecidableEq, Repr

/-- A Python dictionary with string keys, as an association list in
insertion order. -/
abbrev Dict := List (String × Value)

/-- `dict.get(k, default)`-style lookup. -/
def Dict.get? (d : Dict) (k : String) : Option Value :=
  (d.find? (fun p => p.1 = k)).map (·.2)

/-- `dict.update` / `d[k] = v`: replace the value of an existing key in
place, or append a new binding. -/
def Dict.set (d : Dict) (k : String) (v : Value) : Dict :=
  if (d.find? (fun p => p.1 = k)).isSome then
    d.map (fun p => if p.1 = k then (k, v) else p)
  else
    d ++ [(k, v)]

/-- `dict.update(other)` (`models.py`, `RunRequest.to_config`). -/
def Dict.update (d other : Dict) : Dict :=
  other.foldl (fun acc p => acc.set p.1 p.2) d

/-- `Step` from `orchestrator/models.py`. -/
structure Step where
  index : Nat
  name : String
  status : StepStatus := .pending
  progress : ℚ := 0
  started_at : Option Nat := none
  completed_at : Option Nat := none
  error_message : Option String := none
deriving DecidableEq, Repr

/-- `Job` from `orchestrator/models.py`. -/
structure Job where
  job_id : String
  status : JobStatus := .drafted
  progress : ℚ := 0
  cancel_requested : Bool := false
  created_at : Nat := 0
  started_at : Option Nat := none
  completed_at : Option Nat := none
  error_code : Option ErrorCode := none
  error_message : Option String := none
  config : Dict := []
  steps : List Step := []
  metadata : Dict := []
deriving DecidableEq, Repr

/-- `Job.transition_to` (`models.py`): move to `new_status` if the
transition is valid, stamping `started_at` on entry to `running` and
`completed_at` on entry to a terminal status; returns the success flag
together with the (possibly unchanged) job. -/
def Job.transition_to (j : Job) (new_status : JobStatus) (now : Nat) : Bool × Job :=
  if j.status.can_transition_to new_status then
    let j1 := { j with status := new_status }
    let j2 :=
      if new_status = .running then { j1 with started_at := some now }
      else if new_status.is_terminal then { j1 with completed_at := some now }
      else j1
    (true, j2)
  else
    (false, j)

/-- `Job.fail` (`models.py`): set the error fields, then attempt the
transition to `failed`. -/
def Job.fail (j : Job) (code : ErrorCode) (message : String) (now : Nat) : Job :=
  let j1 := { j with error_code := some code, error_message := some message }
  (j1.transition_to .failed now).2

/-- `RunRequest` from `orchestrator/models.py`. -/
structure RunRequest where
  source_paths : List String
  target_path : String
  output_path : String
  processors : List String
  settings : Dict := []
  job_id : Option String := none
deriving DecidableEq, Repr

/-- `RunRequest.generate_job_id` (`models.py`).  The source builds
`f"job-{timestamp}-{short_uuid}"` from the wall clock and a fresh UUID;
those two nondeterministic strings are explicit arguments here.  A
supplied `job_id` is used only when truthy (the empty string is falsy in
Python). -/
def RunRequest.generate_job_id (r : RunRequest) (timestamp uuid8 : String) : String :=
  match r.job_id with
  | some s => if s.isEmpty then "job-" ++ timestamp ++ "-" ++ uuid8 else s
  | none => "job-" ++ timestamp ++ "-" ++ uuid8

/-- `RunRequest.to_config` (`models.py`): the four named keys, then
`config.update(settings)`. -/
def RunRequest.to_config (r : RunRequest) : Dict :=
  Dict.update
    [("source_paths", .strList r.source_paths),
     ("target_path", .str r.target_path),
     ("output_path", .str r.output_path),
     ("processors", .strList r.processors)]
    r.settings

/-! ## Store (`orchestrator/store.py`)

The SQLite `jobs` table, one row per job, in insertion order.  `get_job`
deserialises a fresh `Job` from the row on every call, so the stored rows
and in-memory `Job` values never alias — which the explicit state passing
below reflects automatically. -/

/-- The `jobs` table. -/
abbrev Store := List Job

/-- `JobStore.get_job`: `SELECT * FROM jobs WHERE job_id = ?`. -/
def Store.get_job (s : Store) (id : String) : Option Job :=
  s.find? (fun j => j.job_id = id)

/-- `JobStore.create_job`: `INSERT` of the full row; a primary-key
collision raises, modelled as `none`. -/
def Store.create_job (s : Store) (j : Job) : Option Store :=
  if (s.get_job j.job_id).isSome then none else some (s ++ [j])

/-- `JobStore.update_job`: `UPDATE jobs SET ... WHERE job_id = ?`.  The
`UPDATE` statement writes every column except `created_at`, so the stored
`created_at` is preserved; an unknown `job_id` matches no row. -/
def Store.update_job (s : Store) (j : Job) : Store :=
  s.map (fun r => if r.job_id = j.job_id then { j with created_at := r.created_at } else r)

/-- `JobStore.set_cancel_requested`:
`UPDATE jobs SET cancel_requested = 1 WHERE job_id = ?`; returns
`rowcount > 0`. -/
def Store.set_cancel_requested (s : Store) (id : String) : Bool × Store :=
  ((s.get_job id).isSome,
   s.map (fun r => if r.job_id = id then { r with cancel_requested := true } else r))

/-- `JobStore.is_cancel_requested`. -/
def Store.is_cancel_requested (s : Store) (id : String) : Bool :=
  match s.get_job id with
  | some j => j.cancel_requested
  | none => false

/-- `JobStore.update_progress`: the single conditional statement
`UPDATE jobs SET progress = ? WHERE job_id = ? AND progress < ?`;
returns `rowcount > 0`. -/
def Store.update_progress (s : Store) (id : String) (p : ℚ) : Bool × Store :=
  (match s.get_job id with
   | some j => decide (j.progress < p)
   | none => false,
   s.map (fun r => if r.job_id = id ∧ r.progress < p then { r with progress := p } else r))

/-- `ORDER BY created_at DESC`: `a` may come before `b`. -/
def CreatedAtDesc (a b : Job) : Prop := b.created_at ≤ a.created_at

instance : DecidableRel CreatedAtDesc := fun a b => by
  unfold CreatedAtDesc; exact inferInstance

/-- `JobStore.list_jobs`: filter by status, `ORDER BY created_at DESC`,
`LIMIT limit`.  SQLite leaves the relative order of rows with equal
`created_at` unspecified; it is modelled as stable (table order), via a
stable sort. -/
def Store.list_jobs (s : Store) (status : Option JobStatus) (limit : Nat) : List Job :=
  let rows : List Job :=
    match status with
    | some st => s.filter (fun j => j.status = st)
    | none => s
  (List.insertionSort CreatedAtDesc rows).take limit

/-! ## Events (`orchestrator/events.py`) -/

/-- `EventType` from `orchestrator/events.py`. -/
inductive EventType where
  | job_created
  | job_queued
  | job_started
  | job_progress
  | job_completed
  | job_failed
  | job_canceled
  | step_started
  | step_progress
  | step_completed
  | step_failed
  | log
deriving DecidableEq, Repr

/-- `JobEvent` from `orchestrator/events.py`. -/
structure JobEvent where
  job_id : String
  event_type : EventType
  data : Dict := []
  timestamp : Nat := 0
deriving DecidableEq, Repr

/-- `create_status_event` (`events.py`): the status string is looked up
in a map covering `queued`, `running`, `completed`, `failed` and
`canceled`; any other status (for example `drafted` or
`cancel_requested`) falls through to the map default
`EventType.JOB_STARTED`. -/
def create_status_event (id status message : String) (now : Nat) : JobEvent :=
  let ty : EventType :=
    if status = "queued" then .job_queued
    else if status = "running" then .job_started
    else if status = "completed" then .job_completed
    else if status = "failed" then .job_failed
    else if status = "canceled" then .job_canceled
    else .job_started
  { job_id := id, event_type := ty,
    data := [("status", .str status), ("message", .str message)], timestamp := now }

/-- `create_log_event` (`events.py`). -/
def create_log_event (id level message : String) (now : Nat) : JobEvent :=
  { job_id := id, event_type := .log,
    data := [("level", .str level), ("message", .str message)], timestamp := now }

/-- The string `JobStatus.value` (`str`-valued enum members). -/
def JobStatus.value : JobStatus → String
  | .drafted => "drafted"
  | .queued => "queued"
  | .running => "running"
  | .completed => "completed"
  | .failed => "failed"
  | .canceled => "canceled"

/-! ## Orchestrator (`orchestrator/orchestrator.py`) and Runner
(`orchestrator/runner.py`)

The orchestrator-visible state is the store plus the sequence of events
published on the bus (`EventBus.publish` appends; delivery to
subscribers is out of scope). -/

/-- Store plus published-event log. -/
structure OState where
  store : Store
  events : List JobEvent
deriving DecidableEq, Repr

/-- `EventBus.publish`, observed as appending to the event log. -/
def OState.publish (st : OState) (e : JobEvent) : OState :=
  { st with events := st.events ++ [e] }

/-- `Orchestrator.queue_job`. -/
def queue_job (st : OState) (id : String) (now : Nat) : Bool × OState :=
  match st.store.get_job id with
  | none => (false, st)
  | some job =>
    let (ok, job') := job.transition_to .queued now
    if ok then
      (true, (OState.publish { st with store := st.store.update_job job' }
        (create_status_event id "queued" "" now)))
    else
      (false, st)

/-- `Orchestrator.submit`: build a `drafted` job carrying
`request.to_config()`, one default step and the `client` metadata tag;
`create_job`; publish `create_status_event(job_id, "drafted")`;
auto-queue; return the job id.  A primary-key collision in `create_job`
raises out of `submit`, modelled as `none`. -/
def submit (st : OState) (request : RunRequest) (timestamp uuid8 : String) (now : Nat) :
    Option (String × OState) :=
  let job_id := request.generate_job_id timestamp uuid8
  let job : Job :=
    { job_id := job_id, status := .drafted, created_at := now,
      config := request.to_config,
      steps := [{ index := 0, name := "Processing" }],
      metadata := [("client", .str "orchestrator")] }
  match st.store.create_job job with
  | none => none
  | some s1 =>
    let st1 := OState.publish { st with store := s1 } (create_status_event job_id "drafted" "" now)
    let st2 := (queue_job st1 job_id now).2
    some (job_id, st2)

/-- `Orchestrator.cancel_job`: unknown id returns `False` with no write
and no event; otherwise set the cancel flag, publish
`create_status_event(id, "cancel_requested")` and return `True`
unconditionally. -/
def cancel_job (st : OState) (id : String) (now : Nat) : Bool × OState :=
  match st.store.get_job id with
  | none => (false, st)
  | some _ =>
    let s' := (st.store.set_cancel_requested id).2
    (true, OState.publish { st with store := s' }
      (create_status_event id "cancel_requested" "" now))

/-- `Orchestrator.run_job` without the executor side effect: the
submission-success flag (the job exists and is `queued`). -/
def run_job_accepts (s : Store) (id : String) : Bool :=
  match s.get_job id with
  | none => false
  | some j => j.status = .queued

/-- `Runner.run` (`runner.py`).  The external pipeline
(`process_step_orchestrator`) and path validation are opaque
collaborators; their boolean outcomes are the `validation_ok` and
`pipeline_success` arguments.  `on_progress` callbacks from the pipeline
are not modelled (the pipeline here performs no progress calls); the
result is the returned boolean, the runner's final in-memory job and the
updated state. -/
def runner_run (st : OState) (job : Job) (validation_ok pipeline_success : Bool)
    (now : Nat) : Bool × Job × OState :=
  let job_id := job.job_id
  let st0 := st.publish (create_log_event job_id "info" ("Starting job " ++ job_id) now)
  if !validation_ok then
    let job1 := job.fail .PATH_ERROR "invalid path" now
    (false, job1, { st0 with store := st0.store.update_job job1 })
  else
    let (job2, st2) :=
      match job.steps with
      | [] => (job, st0)
      | step0 :: rest =>
        let j := { job with steps :=
          { step0 with status := .running, started_at := some now } :: rest }
        (j, { st0 with store := st0.store.update_job j })
    if st2.store.is_cancel_requested job_id then
      let st3 := st2.publish (create_log_event job_id "info" "Job canceled by user" now)
      let job3 := (job2.transition_to .canceled now).2
      (false, job3, { st3 with store := st3.store.update_job job3 })
    else if pipeline_success then
      let st3 := st2.publish (create_log_event job_id "info" "Job completed successfully" now)
      let job3 :=
        match job2.steps with
        | [] => job2
        | step0 :: rest =>
          { job2 with steps :=
            { step0 with status := .completed, completed_at := some now, progress := 1 } :: rest }
      -- the source returns True here without writing job3 to the store
      (true, job3, st3)
    else
      let st3 := st2.publish (create_log_event job_id "error" "Processing failed" now)
      let job3 := job2.fail .PIPELINE_FAILED "Pipeline processing failed" now
      let job4 :=
        match job3.steps with
        | [] => job3
        | step0 :: rest => { job3 with steps := { step0 with status := .failed } :: rest }
      (false, job4, { st3 with store := st3.store.update_job job4 })

/-- `Orchestrator._execute_job` (`orchestrator.py`): the worker body, for
executions in which the runner does not raise (the `except` branch is the
separate `INTERNAL_ERROR` path).  After the runner returns, the job is
reloaded from the store and any lingering `running` status is reconciled
to `failed`/`PIPELINE_FAILED`. -/
def execute_job (st : OState) (id : String) (validation_ok pipeline_success : Bool)
    (now : Nat) : OState :=
  match st.store.get_job id with
  | none => st
  | some job =>
    if st.store.is_cancel_requested id then
      let job1 := (job.transition_to .canceled now).2
      OState.publish { st with store := st.store.update_job job1 }
        (create_status_event id "canceled" "" now)
    else
      let (ok, job2) := job.transition_to .running now
      if !ok then st
      else
        let st1 := OState.publish { st with store := st.store.update_job job2 }
          (create_status_event id "running" "" now)
        let (success, rjob, st2) := runner_run st1 job2 validation_ok pipeline_success now
        -- on success the source transitions its local copy to COMPLETED and
        -- sets progress = 1.0, but never writes that copy to the store
        let _local := if success then { ((rjob.transition_to .completed now).2) with progress := (1 : ℚ) } else rjob
        match st2.store.get_job id with
        | none => st2
        | some final_job =>
          if final_job.status = .running then
            let f := final_job.fail .PIPELINE_FAILED "Pipeline exited without setting final status" now
            OState.publish { st2 with store := st2.store.update_job f }
              (create_status_event id f.status.value "" now)
          else
            st2.publish (create_status_event id final_job.status.value "" now)

/-! ## Security (`orchestrator/security.py`) -/

/-- Python's `str.isalnum()` on a single character.  Exact on code points
up to U+00FF (ASCII plus Latin-1: the Unicode letters U+00AA, U+00B5,
U+00BA, U+00C0–U+00D6, U+00D8–U+00F6, U+00F8–U+00FF and the numerics
²³¹¼½¾); code points above U+00FF are decided by the full Unicode
database in the source and are conservatively treated as
non-alphanumeric here — nothing in this development depends on them. -/
def pyIsAlnum (c : Char) : Bool :=
  let n := c.toNat
  if n ≤ 0x7F then c.isAlphanum
  else n = 0xAA || n = 0xB2 || n = 0xB3 || n = 0xB5 || n = 0xB9 || n = 0xBA ||
    n = 0xBC || n = 0xBD || n = 0xBE ||
    (0xC0 ≤ n && n ≤ 0xD6) || (0xD8 ≤ n && n ≤ 0xF6) || (0xF8 ≤ n && n ≤ 0xFF)

/-- `os.path.basename` on POSIX: the part of the path after the last
`/`. -/
def basename (s : List Char) : List Char :=
  s.foldl (fun acc c => if c = '/' then [] else acc ++ [c]) []

/-- The per-character test of the `sanitize_filename` loop:
`char.isalnum() or char in '-_.'`. -/
def allowedChar (c : Char) : Bool :=
  pyIsAlnum c || c = '-' || c = '_' || c = '.'

/-- `sanitize_filename` (`security.py`): keep characters passing
`allowedChar` and replace every other character by `_`
(`sanitized += char` / `sanitized += '_'`); then
`if sanitized.startswith('.'): sanitized = '_' + sanitized[1:]`; then
return `unnamed` when the result is empty. -/
def sanitize_filename (filename : List Char) : List Char :=
  let b := basename filename
  let sanitized := b.map (fun c => if allowedChar c then c else '_')
  let sanitized :=
    if sanitized.head? = some '.' then '_' :: sanitized.tail else sanitized
  if sanitized = [] then "unnamed".toList else sanitized

/-! ## Queue-running endpoint (`api_server.py`, `run_queued_jobs`) -/

/-- `j.metadata.get('priority', 0)` as an integer (`/api/v1/jobs/priority`
stores `int(req.priority)` under this key). -/
def priorityOf (j : Job) : Int :=
  match j.metadata.get? "priority" with
  | some (.int n) => n
  | _ => 0

/-- `a` sorts before (or ties with) `b` under Python's
`sorted(key=lambda j: (priority, created_at), reverse=True)`: the key of
`a` is lexicographically at least the key of `b`. -/
def PriorityGe (a b : Job) : Prop :=
  priorityOf b < priorityOf a ∨
    (priorityOf a = priorityOf b ∧ b.created_at ≤ a.created_at)

instance : DecidableRel PriorityGe := fun a b => by
  unfold PriorityGe; exact inferInstance

instance : IsTotal Job PriorityGe := ⟨by
  intro a b; unfold PriorityGe; omega⟩

instance : IsTrans Job PriorityGe := ⟨by
  intro a b c hab hbc; unfold PriorityGe at *; omega⟩

/-- The ordered list of jobs that `run_queued_jobs` iterates over:
`orch.list_jobs(status=QUEUED)` (which carries the orchestrator's default
`limit = 10`), then Python's stable `sorted(..., reverse=True)` on the
key `(metadata.get('priority', 0), created_at)`.  Python's sort is
stable, and a stable sort of a total preorder is unique, so the stable
`insertionSort` coincides with it. -/
def run_queued_jobs_plan (s : Store) : List Job :=
  List.insertionSort PriorityGe (s.list_jobs (some .queued) 10)

/-- The `started_ids` that `run_queued_jobs` accumulates: the planned
jobs for which `orch.run_job` accepts (the store is not mutated between
the acceptance checks of one request). -/
def run_queued_jobs_started (s : Store) : List String :=
  ((run_queued_jobs_plan s).filter (fun j => run_job_accepts s j.job_id)).map (·.job_id)

/-! ## Helper lemmas -/

/-- A row update that preserves `job_id` commutes with `get_job`. -/
theorem get_job_map (s : Store) (g : Job → Job) (hg : ∀ r, (g r).job_id = r.job_id)
    (id : String) : Store.get_job (s.map g) id = (s.get_job id).map g := by
  induction s with
  | nil => rfl
  | cons r rest ih =>
    by_cases h : r.job_id = id
    · have h' : (g r).job_id = id := by rw [hg]; exact h
      simp [Store.get_job, List.find?_cons_of_pos, h, h']
    · have h' : ¬ (g r).job_id = id := by rw [hg]; exact h
      simpa [Store.get_job, List.find?_cons_of_neg, h, h'] using ih

/-- `get_job` success means the returned job carries the looked-up id. -/
theorem get_job_id (s : Store) (id : String) (j : Job) (h : s.get_job id = some j) :
    j.job_id = id := by
  have := List.find?_some h
  simpa using this

/-! ## C1 -/

/-- The queued one-step job of the happy-path scenario. -/
def C1job : Job :=
  { job_id := "job-1", status := .queued, created_at := 0,
    steps := [{ index := 0, name := "Processing" }] }

/-- C1: executing a queued job whose pipeline invocation returns success
does NOT leave the persisted state at `status = completed`,
`progress = 1.0`.  The worker transitions only its in-memory copy to
`completed`; the store still holds `running`, which the reconciliation
step in the `finally` block then marks `failed` with `PIPELINE_FAILED`.
Evaluating the worker on the happy-path input shows the persisted row. -/
theorem C1_success_persisted_as_failed :
    ((execute_job { store := [C1job], events := [] } "job-1" true true 7).store.get_job
        "job-1").map (fun j => (j.status, j.progress, j.error_code))
      = some (JobStatus.failed, (0 : ℚ), some ErrorCode.PIPELINE_FAILED) := by
  rfl

/-! ## C2 -/

/-- A job that reached `failed` through the state machine:
drafted → queued → running → failed (at time 3). -/
def C2job : Job :=
  (((({ job_id := "j-c2" } : Job).transition_to .queued 1).2.transition_to .running 2).2.transition_to
    .failed 3).2

/-- C2 counterexample: after the valid retry transition
`failed → queued`, `completed_at` is still set (to the time of the
failure) while the status is the non-terminal `queued`, so
"`completed_at` is set iff `status` is terminal" fails and in particular
"`completed_at` is not set" after the retry is false. -/
theorem C2_retry_keeps_completed_at_cex :
    (C2job.transition_to .queued 4).1 = true ∧
    ((C2job.transition_to .queued 4).2).completed_at = some 3 ∧
    ((C2job.transition_to .queued 4).2).status = .queued ∧
    ((C2job.transition_to .queued 4).2).status.is_terminal = false := by
  refine ⟨rfl, rfl, rfl, rfl⟩

/-- C2 (amended): `transition_to` stamps `completed_at` on every
transition into a terminal status, and the valid retry transition
`failed → queued` succeeds but leaves `completed_at` unchanged (it is
not cleared) — so after a retry `completed_at` can be set while the
status is not terminal. -/
theorem C2_completed_at_amended (j : Job) (t : JobStatus) (now : Nat) :
    ((j.transition_to t now).1 = true → t.is_terminal = true →
      ((j.transition_to t now).2).completed_at = some now)
    ∧ (j.status = .failed →
        (j.transition_to .queued now).1 = true ∧
        ((j.transition_to .queued now).2).completed_at = j.completed_at ∧
        ((j.transition_to .queued now).2).status = .queued) := by
  obtain ⟨id, st, pr, cr, ca, sa, coa, ec, em, cf, sp, md⟩ := j
  cases st <;> cases t <;>
    simp [Job.transition_to, JobStatus.can_transition_to, JobStatus.valid_transitions,
      JobStatus.is_terminal]

/-- C2 witness: the amended theorem applied to the concrete retried job. -/
theorem C2_completed_at_amended_witness :
    (C2job.transition_to .queued 4).1 = true ∧
    ((C2job.transition_to .queued 4).2).completed_at = C2job.completed_at ∧
    ((C2job.transition_to .queued 4).2).status = .queued :=
  (C2_completed_at_amended C2job .queued 4).2 (by rfl)

/-! ## C5 -/

/-- C5: `transition_to` succeeds exactly on the pairs of the transition
table (drafted → queued, queued → running/canceled,
running → completed/failed/canceled, failed → queued), and on every
other pair it returns `false` and leaves the job — all fields —
unchanged. -/
theorem C5_transition_table_exact (j : Job) (t : JobStatus) (now : Nat) :
    ((j.transition_to t now).1 = true ↔
      ((j.status = .drafted ∧ t = .queued) ∨
       (j.status = .queued ∧ (t = .running ∨ t = .canceled)) ∨
       (j.status = .running ∧ (t = .completed ∨ t = .failed ∨ t = .canceled)) ∨
       (j.status = .failed ∧ t = .queued)))
    ∧ ((j.transition_to t now).1 = false → (j.transition_to t now).2 = j) := by
  obtain ⟨id, st, pr, cr, ca, sa, coa, ec, em, cf, sp, md⟩ := j
  cases st <;> cases t <;>
    simp [Job.transition_to, JobStatus.can_transition_to, JobStatus.valid_transitions,
      JobStatus.is_terminal]

/-- C5 witness: the invalid transition `completed → queued` fails and
leaves the concrete job unchanged. -/
theorem C5_transition_table_witness :
    (({ job_id := "j-c5", status := .completed } : Job).transition_to .queued 3).2 = { job_id := "j-c5", status := .completed } :=
  (C5_transition_table_exact ({ job_id := "j-c5", status := .completed } : Job) .queued 3).2 (by rfl)

/-! ## C9 -/

/-- C9: `Job.fail` sets `error_code` and `error_message` unconditionally;
whenever the status is not `running` (the only status from which
`failed` is reachable), the status and both timestamps stay unchanged,
so a job can carry a non-null `error_code` while not being `failed`. -/
theorem C9_fail_sets_error_unconditionally (j : Job) (code : ErrorCode) (message : String)
    (now : Nat) :
    (j.fail code message now).error_code = some code
    ∧ (j.fail code message now).error_message = some message
    ∧ (j.status ≠ .running →
        (j.fail code message now).status = j.status
        ∧ (j.fail code message now).started_at = j.started_at
        ∧ (j.fail code message now).completed_at = j.completed_at) := by
  obtain ⟨id, st, pr, cr, ca, sa, coa, ec, em, cf, sp, md⟩ := j
  cases st <;>
    simp [Job.fail, Job.transition_to, JobStatus.can_transition_to,
      JobStatus.valid_transitions, JobStatus.is_terminal]

/-- C9 witness: failing a drafted job records the error but leaves the
status `drafted` (not `failed`). -/
theorem C9_fail_witness :
    (({ job_id := "j-c9" } : Job).fail .VALIDATION_ERROR "bad request" 3).error_code
        = some .VALIDATION_ERROR
    ∧ (({ job_id := "j-c9" } : Job).fail .VALIDATION_ERROR "bad request" 3).error_message
        = some "bad request"
    ∧ (({ job_id := "j-c9" } : Job).fail .VALIDATION_ERROR "bad request" 3).status = ({ job_id := "j-c9" } : Job).status :=
  ⟨(C9_fail_sets_error_unconditionally ({ job_id := "j-c9" } : Job) .VALIDATION_ERROR "bad request" 3).1,
   (C9_fail_sets_error_unconditionally ({ job_id := "j-c9" } : Job) .VALIDATION_ERROR "bad request" 3).2.1,
   ((C9_fail_sets_error_unconditionally ({ job_id := "j-c9" } : Job) .VALIDATION_ERROR "bad request" 3).2.2
     (by decide)).1⟩

/-! ## C10 -/

/-- C10: cancelling a job id that is not in the store returns `false`,
publishes no event and leaves the state — store and event log —
untouched. -/
theorem C10_cancel_unknown_id (st : OState) (id : String) (now : Nat)
    (h : st.store.get_job id = none) :
    cancel_job st id now = (false, st) := by
  simp [cancel_job, h]

/-- C10 witness: cancelling on the empty store. -/
theorem C10_cancel_unknown_id_witness :
    cancel_job { store := [], events := [] } "missing" 0
      = (false, { store := [], events := [] }) :=
  C10_cancel_unknown_id { store := [], events := [] } "missing" 0 (by rfl)

/-! ## C6 -/

/-- C6: for a stored job, `update_progress(id, p)` returns `true`
exactly when `p` is strictly greater than the stored progress, in which
case the stored row's progress becomes `p` and nothing else changes;
otherwise the row is unchanged and `false` is returned; and a second
call with the same `p` leaves the whole store exactly as after the
first. -/
theorem C6_update_progress_conditional (s : Store) (id : String) (p : ℚ) (j : Job)
    (h : s.get_job id = some j) :
    ((s.update_progress id p).1 = true ↔ j.progress < p)
    ∧ ((s.update_progress id p).2.get_job id
        = some (if j.progress < p then { j with progress := p } else j))
    ∧ (((s.update_progress id p).2.update_progress id p).2 = (s.update_progress id p).2) := by
  have hid : j.job_id = id := get_job_id s id j h
  have hg : ∀ r : Job,
      ((fun r : Job => if r.job_id = id ∧ r.progress < p then { r with progress := p } else r)
        r).job_id = r.job_id := by
    intro r; by_cases hc : r.job_id = id ∧ r.progress < p <;> simp [hc]
  refine ⟨?_, ?_, ?_⟩
  · simp [Store.update_progress, h]
  · have hm := get_job_map s
      (fun r : Job => if r.job_id = id ∧ r.progress < p then { r with progress := p } else r)
      hg id
    simp only [Store.update_progress]
    rw [hm, h]
    by_cases hp : j.progress < p <;> simp [hp, hid]
  · simp only [Store.update_progress]
    rw [List.map_map]
    apply List.map_congr_left
    intro r _
    by_cases hc : r.job_id = id ∧ r.progress < p
    · simp [Function.comp, hc, lt_irrefl]
    · simp [Function.comp, hc]

/-- The stored job used in the C6 witness. -/
def C6job : Job := { job_id := "w6", status := .running, created_at := 0 }

/-- C6 witness: on a store holding one job with progress `0`, an update
to `1/2` reports `true` and stores `1/2`. -/
theorem C6_update_progress_witness :
    (Store.update_progress [C6job] "w6" (1/2)).1 = true
    ∧ ((Store.update_progress [C6job] "w6" (1/2)).2.get_job "w6"
        = some { C6job with progress := 1/2 }) := by
  have h := C6_update_progress_conditional [C6job] "w6" (1/2) C6job (by rfl)
  refine ⟨h.1.mpr (by norm_num [C6job]), ?_⟩
  have h2 := h.2.1
  rw [if_pos (by norm_num [C6job])] at h2
  exact h2

/-! ## C7 -/

/-- The terminal job of the C7 counterexample; `cancel_requested` is
`false`. -/
def C7job : Job := { job_id := "j-c7", status := .completed, created_at := 0 }

/-- C7 counterexample: `cancel_job` on a terminal (`completed`) job
returns success but is NOT a no-op: it flips the stored
`cancel_requested` from `false` to `true`. -/
theorem C7_cancel_terminal_not_noop_cex :
    (cancel_job { store := [C7job], events := [] } "j-c7" 2).1 = true
    ∧ ((cancel_job { store := [C7job], events := [] } "j-c7" 2).2.store.get_job "j-c7").map
        Job.cancel_requested = some true
    ∧ C7job.cancel_requested = false
    ∧ C7job.status.is_terminal = true := by
  exact ⟨rfl, rfl, rfl, rfl⟩

/-- C7 (amended): `cancel_job` on a stored terminal job returns success,
publishes a cancel-request event and sets the row's `cancel_requested`
to `true`, leaving every other field of the row unchanged; the row is
fully unchanged only when `cancel_requested` was already `true`. -/
theorem C7_cancel_terminal_amended (st : OState) (id : String) (j : Job) (now : Nat)
    (h : st.store.get_job id = some j) (hterm : j.status.is_terminal = true) :
    (cancel_job st id now).1 = true
    ∧ ((cancel_job st id now).2.store.get_job id = some { j with cancel_requested := true })
    ∧ ((cancel_job st id now).2.events
        = st.events ++ [create_status_event id "cancel_requested" "" now])
    ∧ (j.cancel_requested = true → (cancel_job st id now).2.store.get_job id = some j) := by
  have hid : j.job_id = id := get_job_id st.store id j h
  have hg : ∀ r : Job,
      ((fun r : Job => if r.job_id = id then { r with cancel_requested := true } else r)
        r).job_id = r.job_id := by
    intro r; by_cases hc : r.job_id = id <;> simp [hc]
  have hget : (cancel_job st id now).2.store.get_job id
      = some { j with cancel_requested := true } := by
    have hm := get_job_map st.store
      (fun r : Job => if r.job_id = id then { r with cancel_requested := true } else r) hg id
    simp only [cancel_job, h, Store.set_cancel_requested, OState.publish]
    rw [hm, h]
    simp [hid]
  refine ⟨by simp [cancel_job, h], hget, by simp [cancel_job, h, OState.publish], ?_⟩
  intro hcr
  rw [hget]
  obtain ⟨id', status', pr, cr, ca, sa, coa, ec, em, cf, sp, md⟩ := j
  simp only at hcr
  rw [hcr]

/-- C7 witness: the amended theorem on the concrete completed job. -/
theorem C7_cancel_terminal_witness :
    (cancel_job { store := [C7job], events := [] } "j-c7" 2).1 = true
    ∧ ((cancel_job { store := [C7job], events := [] } "j-c7" 2).2.store.get_job "j-c7"
        = some { C7job with cancel_requested := true }) :=
  ⟨(C7_cancel_terminal_amended { store := [C7job], events := [] } "j-c7" C7job 2
      (by rfl) (by rfl)).1,
   (C7_cancel_terminal_amended { store := [C7job], events := [] } "j-c7" C7job 2
      (by rfl) (by rfl)).2.1⟩

/-! ## C3 -/

/-- The run request of the C3 evaluation. -/
def C3req : RunRequest :=
  { source_paths := ["s.jpg"], target_path := "t.mp4", output_path := "o.mp4",
    processors := ["face_swapper"] }

/-- C3: `submit` creates the job, auto-queues it and returns the
generated id — but the event published at creation has type
`job_started`, not `job_created`: `create_status_event` is called with
the status string `drafted`, which is missing from its map and falls
through to the default `JOB_STARTED`.  Evaluating `submit` on a fresh
store shows the creation event (carrying `status = 'drafted'`) with type
`job_started`, followed by the `job_queued` event, and the stored job in
status `queued`. -/
theorem C3_submit_creation_event_is_job_started :
    (submit { store := [], events := [] } C3req "20240101-000000" "abcd1234" 0).map
        (fun r => (r.1,
          r.2.events.map (fun e => (e.event_type, e.data.get? "status")),
          (r.2.store.get_job r.1).map Job.status))
      = some ("job-20240101-000000-abcd1234",
          [(.job_started, some (.str "drafted")), (.job_queued, some (.str "queued"))],
          some .queued) := by
  rfl

/-! ## C4 -/

/-- Queued job created first (at time 0), no priority metadata. -/
def C4jobA : Job := { job_id := "A", status := .queued, created_at := 0 }

/-- Queued job created second (at time 1), no priority metadata. -/
def C4jobB : Job := { job_id := "B", status := .queued, created_at := 1 }

/-- C4 counterexample: two queued jobs with equal (defaulted) priority
and ascending creation times are started newest-first (`["B", "A"]`),
not in `created_at` ascending order (`["A", "B"]`): `sorted(...,
reverse=True)` reverses the comparison on the whole
`(priority, created_at)` key, so the tie-break is `created_at`
descending. -/
theorem C4_equal_priority_runs_newest_first_cex :
    priorityOf C4jobA = 0 ∧ priorityOf C4jobB = 0
    ∧ C4jobA.created_at < C4jobB.created_at
    ∧ run_queued_jobs_started [C4jobA, C4jobB] = ["B", "A"] := by
  exact ⟨rfl, rfl, by decide, rfl⟩

/-- C4 (amended): the jobs dequeued by `run_queued_jobs` (at most the 10
most recently created queued jobs) are all queued and are ordered by
`metadata.priority` descending and, among jobs of equal priority,
`created_at` descending. -/
theorem C4_plan_priority_desc_created_desc_amended (s : Store) :
    List.Sorted PriorityGe (run_queued_jobs_plan s)
    ∧ (run_queued_jobs_plan s).all (fun j => decide (j.status = .queued)) = true := by
  constructor
  · simp only [run_queued_jobs_plan]
    exact List.sorted_insertionSort PriorityGe _
  · rw [List.all_eq_true]
    intro j hj
    simp only [run_queued_jobs_plan] at hj
    have h1 : j ∈ Store.list_jobs s (some .queued) 10 :=
      ((List.perm_insertionSort PriorityGe _).mem_iff).mp hj
    simp only [Store.list_jobs] at h1
    have h2 := List.mem_of_mem_take h1
    have h3 : j ∈ s.filter (fun r => r.status = .queued) :=
      ((List.perm_insertionSort CreatedAtDesc _).mem_iff).mp h2
    have h4 := (List.mem_filter.mp h3).2
    simpa using h4

/-! ## C8 -/

/-- The character class `[A-Za-z0-9._-]` named by the claim. -/
def asciiNameChar (c : Char) : Bool :=
  ('A' ≤ c && c ≤ 'Z') || ('a' ≤ c && c ≤ 'z') || ('0' ≤ c && c ≤ '9') ||
    c = '.' || c = '_' || c = '-'

/-- C8 counterexample: Python's `str.isalnum` accepts non-ASCII letters,
so `sanitize_filename` passes `é` through unchanged, and the result is
not restricted to `[A-Za-z0-9._-]`. -/
theorem C8_sanitize_keeps_nonascii_cex :
    sanitize_filename "é".toList = "é".toList
    ∧ asciiNameChar 'é' = false
    ∧ ("é".toList.all asciiNameChar) = false := by
  exact ⟨rfl, rfl, rfl⟩

/-- C8 (amended): for every input, `sanitize_filename` returns a
non-empty name whose characters are all Python-alphanumeric (which
includes non-ASCII letters, not only `[A-Za-z0-9]`) or in `-_.`, never
starting with `.`, and returns `unnamed` on the empty input. -/
theorem C8_sanitize_amended (s : List Char) :
    (sanitize_filename s).isEmpty = false
    ∧ (sanitize_filename s).all allowedChar = true
    ∧ ((sanitize_filename s).head?.any (fun c => c = '.')) = false
    ∧ sanitize_filename [] = "unnamed".toList := by
  refine ?_
  have hall : ((basename s).map (fun c => if allowedChar c then c else '_')).all
      allowedChar = true := by
    rw [List.all_eq_true]
    intro c hc
    obtain ⟨a, _, rfl⟩ := List.mem_map.mp hc
    by_cases h : allowedChar a
    · simp [h]
    · rw [if_neg h]
      decide
  simp only [sanitize_filename]
  cases hm : (basename s).map (fun c => if allowedChar c then c else '_') with
  | nil => exact ⟨by decide, by decide, by decide, rfl⟩
  | cons c rest =>
    rw [hm] at hall
    by_cases hc : c = '.'
    · subst hc
      have hrest : rest.all allowedChar = true := by
        rw [List.all_eq_true] at hall ⊢
        intro x hx; exact hall x (List.mem_cons_of_mem _ hx)
      have hmid : ('_' :: rest).all allowedChar = true := by
        rw [List.all_cons, Bool.and_eq_true]
        exact ⟨by decide, hrest⟩
      exact ⟨rfl, hmid, rfl, rfl⟩
    · have hhead : ¬ ((c :: rest).head? = some '.') := by
        simp [List.head?, hc]
      rw [if_neg hhead]
      have hne : ¬ (c :: rest = ([] : List Char)) := by simp
      rw [if_neg hne]
      exact ⟨by simp, hall, by simpa using hc, rfl⟩

end Facefusion
